import Mathlib

set_option autoImplicit false

/-!
Verification of the `fill-census` pipeline of the airtable-enrich CLI
(`src/airtable-enrich/cli.py`) against its natural-language specification.

The Python source is shallowly embedded: Airtable field values become the
`Value` type, Python exceptions become the `PyErr` error type carried in
`Except`, JSON documents become the `Json` type, and the two tract-resolver
strategies — which perform network / shapefile I/O — are passed to
`fill_census` as explicit function parameters, exactly at the call interface
`resolve(lat, lng) -> Optional[str]` that `cli.py` uses.  The JSON-decoding
body of `tract_from_census_geocoder` (lines 40-54 of cli.py) is embedded
concretely as `tract_from_census_geocoder_body`.
-/

namespace AEnrich

/-- An Airtable field value as seen by the Python code: `None`, a string, or
a number (numbers are modelled as rationals; the claims never exercise
non-rational floats). -/
inductive Value where
  | null : Value
  | str (s : String) : Value
  | num (q : Rat) : Value
deriving DecidableEq, Repr

/-- Python truthiness of a field value: `None`, `""` and `0` are falsy
(the `if not lat_str or not lng_str` test in cli.py line 150). -/
def truthy : Value → Bool
  | .null => false
  | .str s => s ≠ ""
  | .num q => q ≠ 0

/-- Python exceptions that the embedded code can raise. -/
inductive PyErr where
  | valueError (msg : String) : PyErr
  | typeError (msg : String) : PyErr
  | attributeError (msg : String) : PyErr
  | keyError (key : String) : PyErr
  | indexError : PyErr
  | exception (msg : String) : PyErr
  | requestError (msg : String) : PyErr
deriving DecidableEq, Repr

/-- A record fetched from the table store: an opaque id plus a field
mapping (`row["id"]`, `row["fields"]`).  The mapping is an association list
read by first match. -/
structure AirRecord where
  id : String
  fields : List (String × Value)
deriving DecidableEq, Repr

/-- `row["fields"].get(k)`: Python `dict.get` returns `None` when the key is
absent. -/
def dictGet (kvs : List (String × Value)) (k : String) : Value :=
  match kvs.find? (fun p => p.1 = k) with
  | some p => p.2
  | none => .null

/-- Writing one field of the mapping.  Modelled from the spec: the external
table store's `batch_update` sets the given field to the given value; with
first-match association lists, prepending realises the update. -/
def dictSet (kvs : List (String × Value)) (k : String) (v : Value) :
    List (String × Value) :=
  (k, v) :: kvs

/-- Characters `0`-`9` to their value. -/
def digitVal (c : Char) : Nat := c.toNat - 48

/-- Value of a digit string read most-significant first. -/
def digitsVal (cs : List Char) : Nat :=
  cs.foldl (fun a c => 10 * a + digitVal c) 0

/-- ASCII whitespace, as stripped by Python's `float`/`int` conversions. -/
def isWS (c : Char) : Bool :=
  c = ' ' ∨ c = '\t' ∨ c = '\n' ∨ c = '\r'

/-- Strip surrounding whitespace from a character list. -/
def trimWS (cs : List Char) : List Char :=
  ((cs.dropWhile isWS).reverse.dropWhile isWS).reverse

/-- Split a leading `+`/`-` sign from a character list; `true` means
negative. -/
def splitSign : List Char → Bool × List Char
  | [] => (false, [])
  | c :: cs =>
    if c = '-' then (true, cs)
    else if c = '+' then (false, cs)
    else (false, c :: cs)

/-- Optional exponent part of a float literal: empty, or `e`/`E`, optional
sign, then digits.  Returns the scaled base, or `none` when malformed. -/
def parseExpPart (base : Rat) : List Char → Option Rat
  | [] => some base
  | c :: rest =>
    if c = 'e' ∨ c = 'E' then
      let (neg, ds) := splitSign rest
      if ds ≠ [] ∧ ds.all Char.isDigit then
        let e : Nat := digitsVal ds
        if neg then some (base / (10 : Rat) ^ e) else some (base * (10 : Rat) ^ e)
      else none
    else none

/-- Unsigned float literal: digits, optional `.digits` fraction, optional
exponent; at least one digit before or after the point. -/
def parseUnsignedFloat (cs : List Char) : Option Rat :=
  let intPart := cs.takeWhile Char.isDigit
  let rest := cs.dropWhile Char.isDigit
  match rest with
  | '.' :: afterDot =>
    let fracPart := afterDot.takeWhile Char.isDigit
    let rest2 := afterDot.dropWhile Char.isDigit
    if intPart = [] ∧ fracPart = [] then none
    else
      parseExpPart
        ((digitsVal intPart : Rat) +
          (digitsVal fracPart : Rat) / (10 : Rat) ^ fracPart.length)
        rest2
  | rest2 =>
    if intPart = [] then none
    else parseExpPart (digitsVal intPart : Rat) rest2

/-- Python `float(s)` on a string: surrounding whitespace stripped, optional
sign, decimal literal with optional fraction and exponent.  (`inf`, `nan`
and digit-group underscores, which the claims never exercise, are treated
as unparseable.) -/
def parseFloatStr (s : String) : Option Rat :=
  let cs := trimWS s.data
  let (neg, body) := splitSign cs
  match parseUnsignedFloat body with
  | some q => some (if neg then -q else q)
  | none => none

/-- Python `float(v)` on a field value: numbers pass through, strings are
parsed (raising `ValueError` when unparseable), `None` raises `TypeError`.
Used for `lat = float(lat_str)` at cli.py line 159. -/
def pyFloat : Value → Except PyErr Rat
  | .num q => .ok q
  | .str s =>
    match parseFloatStr s with
    | some q => .ok q
    | none => .error (.valueError ("could not convert string to float: " ++ s))
  | .null => .error (.typeError "float() argument must be a string or a real number, not NoneType")

/-- Python `int(s)` on a string: surrounding whitespace stripped, optional
sign, then a nonempty run of digits; anything else raises `ValueError`.
Used for `int(tract)` at cli.py line 179. -/
def pyInt (s : String) : Except PyErr Int :=
  let cs := trimWS s.data
  let (neg, body) := splitSign cs
  if body ≠ [] ∧ body.all Char.isDigit then
    let n : Int := (digitsVal body : Int)
    .ok (if neg then -n else n)
  else
    .error (.valueError ("invalid literal for int() with base 10: " ++ s))

/-- Python `existing_geoid == geoid` where `geoid` is a `str`: only a string
value can compare equal to a string in Python. -/
def pyEqStr (v : Value) (s : String) : Bool :=
  match v with
  | .str t => t = s
  | _ => false

/-- Configuration of one `fill-census` invocation (the CLI options the
per-row logic reads). -/
structure Config where
  lat_field : String
  lng_field : String
  tract_field : String
  confirm : Bool
  override : Bool
  engine : String
deriving DecidableEq, Repr

/-- A pending write, `{"id": row["id"], "fields": {tract_field: geoid}}`
(cli.py lines 194-197). -/
structure Update where
  id : String
  field : String
  value : String
deriving DecidableEq, Repr

/-- Outcome of processing one row of the table inside the
"Querying for census data" loop (cli.py lines 146-197).  Each constructor is
one `continue`/append point of the loop body; the `skip…` constructors other
than `skipSame` correspond to a `click.echo` log line. -/
inductive RowResult where
  | skipMissing : RowResult
  | skipNoTract : RowResult
  | skipSame : RowResult
  | skipConflict (existing : Value) (newValue : String) : RowResult
  | upd (u : Update) : RowResult
deriving DecidableEq, Repr

/-- A tract resolver at the interface the loop uses:
`resolve(lat, lng) -> Optional[str]`, possibly raising. -/
def Resolver : Type := Rat → Rat → Except PyErr (Option String)

/-- The engine dispatch of cli.py lines 163-168: `geocoder`, `shapefile`, or
`raise Exception(f"Invalid engine specified {engine}")`. -/
def resolveTract (engine : String) (geocoder shapefile : Resolver)
    (lat lng : Rat) : Except PyErr (Option String) :=
  if engine = "geocoder" then geocoder lat lng
  else if engine = "shapefile" then shapefile lat lng
  else .error (.exception ("Invalid engine specified " ++ engine))

/-- The body of the per-row loop of `fill_census` (cli.py lines 147-197),
for one row.  An uncaught Python exception surfaces as `.error`. -/
def processRow (cfg : Config) (geocoder shapefile : Resolver)
    (row : AirRecord) : Except PyErr RowResult :=
  let lat_str := dictGet row.fields cfg.lat_field
  let lng_str := dictGet row.fields cfg.lng_field
  if !truthy lat_str || !truthy lng_str then
    .ok .skipMissing
  else
    match pyFloat lat_str with
    | .error e => .error e
    | .ok lat =>
      match pyFloat lng_str with
      | .error e => .error e
      | .ok lng =>
        match resolveTract cfg.engine geocoder shapefile lat lng with
        | .error e => .error e
        | .ok tract =>
          match tract with
          | none => .ok .skipNoTract
          | some t =>
            if t = "" then .ok .skipNoTract
            else
              match pyInt t with
              | .error e => .error e
              | .ok n =>
                let geoid := toString n
                let existing := dictGet row.fields cfg.tract_field
                if pyEqStr existing geoid then .ok .skipSame
                else if truthy existing ∧ ¬ cfg.override then
                  .ok (.skipConflict existing geoid)
                else
                  .ok (.upd ⟨row.id, cfg.tract_field, geoid⟩)

/-- The whole "Querying for census data" loop: rows are processed in fetch
order; the first uncaught exception aborts the loop (and the run). -/
def runRows (cfg : Config) (geocoder shapefile : Resolver) :
    List AirRecord → Except PyErr (List RowResult)
  | [] => .ok []
  | r :: rs =>
    match processRow cfg geocoder shapefile r with
    | .error e => .error e
    | .ok x =>
      match runRows cfg geocoder shapefile rs with
      | .error e => .error e
      | .ok xs => .ok (x :: xs)

/-- The updates appended by the loop, in order. -/
def updatesOf (results : List RowResult) : List Update :=
  results.filterMap fun r =>
    match r with
    | .upd u => some u
    | _ => none

/-- Terminal state of a `fill-census` run.  `applied` is the one constructor
in which `table.batch_update` is called; `abortedByUser` is `click.Abort`
raised by a declined `click.confirm(..., abort=True)`; `failed` is an
uncaught Python exception. -/
inductive Outcome where
  | noUpdates : Outcome
  | applied (updates : List Update) : Outcome
  | abortedByUser (pending : List Update) : Outcome
  | failed (e : PyErr) : Outcome
deriving DecidableEq, Repr

/-- The `fill_census` command (cli.py lines 110-222) after the rows have
been fetched: the census-query loop, the empty-update early return, the
confirmation gate, and the final `batch_update`.  `confirmAnswer` is the
operator's answer at the prompt. -/
def fill_census (cfg : Config) (geocoder shapefile : Resolver)
    (confirmAnswer : Bool) (table_data : List AirRecord) : Outcome :=
  match runRows cfg geocoder shapefile table_data with
  | .error e => .failed e
  | .ok results =>
    let updates := updatesOf results
    if updates.isEmpty then .noUpdates
    else if cfg.confirm ∧ ¬ confirmAnswer then .abortedByUser updates
    else .applied updates

/-- Process exit code of each outcome under the click framework: a normal
return exits 0; `click.Abort` (declined confirmation) is caught by click's
standalone main, which prints "Aborted!" and exits 1; an uncaught exception
terminates Python with a nonzero status.  (click is an external collaborator
of the spec; this encodes its documented behaviour.) -/
def exitCode : Outcome → Nat
  | .noUpdates => 0
  | .applied _ => 0
  | .abortedByUser _ => 1
  | .failed _ => 1

/-! ### The remote geocoder's JSON handling (cli.py lines 28-54) -/

/-- A parsed JSON document, as returned by `r.json()`. -/
inductive Json where
  | null : Json
  | bool (b : Bool) : Json
  | num (q : Rat) : Json
  | str (s : String) : Json
  | arr (xs : List Json) : Json
  | obj (kvs : List (String × Json)) : Json

/-- Python truthiness of a JSON value (`if not result`, `if not tracts`,
`if tract.get("status")`). -/
def jtruthy : Json → Bool
  | .null => false
  | .bool b => b
  | .num q => q ≠ 0
  | .str s => s ≠ ""
  | .arr xs => ¬ xs.isEmpty
  | .obj kvs => ¬ kvs.isEmpty

/-- `d.get(k)` on a JSON value: returns the entry or `None` on a dict, and
raises `AttributeError` when the receiver is not a dict (in particular when
it is `None`). -/
def jsonGet (j : Json) (k : String) : Except PyErr Json :=
  match j with
  | .obj kvs =>
    match kvs.find? (fun p => p.1 = k) with
    | some p => .ok p.2
    | none => .ok .null
  | _ => .error (.attributeError ("object has no attribute get: " ++ k))

/-- `d[k]` on a JSON value: raises `KeyError` when absent, `TypeError` when
the receiver is not a dict. -/
def jsonItem (j : Json) (k : String) : Except PyErr Json :=
  match j with
  | .obj kvs =>
    match kvs.find? (fun p => p.1 = k) with
    | some p => .ok p.2
    | none => .error (.keyError k)
  | _ => .error (.typeError "object is not subscriptable")

/-- `xs[0]` on a JSON value: first element of a nonempty list, `IndexError`
on an empty list, `TypeError` otherwise.  (A dict receiver would raise
`KeyError 0`; no integer keys occur here, so `TypeError` stands for every
non-list receiver.) -/
def jsonFirst (j : Json) : Except PyErr Json :=
  match j with
  | .arr (x :: _) => .ok x
  | .arr [] => .error .indexError
  | _ => .error (.typeError "object is not subscriptable")

/-- The response-decoding body of `tract_from_census_geocoder`
(cli.py lines 40-54), applied to the parsed JSON body `response`:

    result = response.get("result")
    if not result: return None
    geographies = result.get("geographies")
    tracts = geographies.get("Census Tracts")
    if not tracts: return None
    tract = tracts[0]
    if tract.get("status"): return None
    return tract["GEOID"]
-/
def tract_from_census_geocoder_body (response : Json) :
    Except PyErr (Option Json) :=
  match jsonGet response "result" with
  | .error e => .error e
  | .ok result =>
    if !jtruthy result then .ok none
    else
      match jsonGet result "geographies" with
      | .error e => .error e
      | .ok geographies =>
        match jsonGet geographies "Census Tracts" with
        | .error e => .error e
        | .ok tracts =>
          if !jtruthy tracts then .ok none
          else
            match jsonFirst tracts with
            | .error e => .error e
            | .ok tract =>
              match jsonGet tract "status" with
              | .error e => .error e
              | .ok status =>
                if jtruthy status then .ok none
                else
                  match jsonItem tract "GEOID" with
                  | .error e => .error e
                  | .ok g => .ok (some g)

/-- The full remote-geocoder resolver: `requests.get(..., timeout=20)`
followed by the JSON decoding.  The network call is a parameter `net`
returning either a transport/timeout error (which `requests.get` raises and
nothing in cli.py catches) or the parsed JSON body. -/
def tract_from_census_geocoder (net : Rat → Rat → Except PyErr Json)
    (lat lng : Rat) : Except PyErr (Option Json) :=
  match net lat lng with
  | .error e => .error e
  | .ok body => tract_from_census_geocoder_body body

/-- Adapter from the geocoder to the `Optional[str]` resolver interface the
loop consumes: a string `GEOID` passes through (real geocoder responses
carry `GEOID` as a JSON string, matching the source's `Optional[str]`
annotation); errors propagate. -/
def geocoderResolver (net : Rat → Rat → Except PyErr Json) : Resolver :=
  fun lat lng =>
    match tract_from_census_geocoder net lat lng with
    | .error e => .error e
    | .ok none => .ok none
    | .ok (some (.str s)) => .ok (some s)
    | .ok (some _) => .error (.typeError "GEOID is not a string")

/-- `batch_update`: applies each pending update to the record with the
matching id.  Modelled from the spec: the table store's
`batch_update(list[Update])` writes each Update's fields to its Record. -/
def applyUpdates (updates : List Update) (recs : List AirRecord) :
    List AirRecord :=
  recs.map fun r =>
    match updates.find? (fun u => u.id = r.id) with
    | some u => { r with fields := dictSet r.fields u.field (.str u.value) }
    | none => r

end AEnrich

namespace AEnrich

/-! ### General lemmas about the per-row step -/

/-- A falsy latitude or longitude short-circuits the row to the
missing-coordinate skip. -/
theorem processRow_skipMissing (cfg : Config) (g s : Resolver) (row : AirRecord)
    (h : truthy (dictGet row.fields cfg.lat_field) = false ∨
         truthy (dictGet row.fields cfg.lng_field) = false) :
    processRow cfg g s row = .ok .skipMissing := by
  rcases h with h | h <;> simp [processRow, h]

/-- When the coordinates parse and the resolver yields a nonempty tract that
`int()` accepts, the row step reduces to the diff-against-existing logic. -/
theorem processRow_resolved (cfg : Config) (g s : Resolver) (row : AirRecord)
    (lat lng : Rat) (t : String) (n : Int)
    (h1 : truthy (dictGet row.fields cfg.lat_field) = true)
    (h2 : truthy (dictGet row.fields cfg.lng_field) = true)
    (h3 : pyFloat (dictGet row.fields cfg.lat_field) = .ok lat)
    (h4 : pyFloat (dictGet row.fields cfg.lng_field) = .ok lng)
    (h5 : resolveTract cfg.engine g s lat lng = .ok (some t))
    (h6 : t ≠ "")
    (h7 : pyInt t = .ok n) :
    processRow cfg g s row =
      (if pyEqStr (dictGet row.fields cfg.tract_field) (toString n) then
        .ok .skipSame
      else if truthy (dictGet row.fields cfg.tract_field) ∧ ¬ cfg.override then
        .ok (.skipConflict (dictGet row.fields cfg.tract_field) (toString n))
      else
        .ok (.upd ⟨row.id, cfg.tract_field, toString n⟩)) := by
  simp [processRow, h1, h2, h3, h4, h5, h6, h7]

end AEnrich

namespace AEnrich

/-- Inversion: a row that produced an Update passed every branch of the
loop body, and the Update targets that row and the configured tract field. -/
theorem processRow_upd_inv (cfg : Config) (g s : Resolver) (row : AirRecord) (u : Update)
    (h : processRow cfg g s row = .ok (.upd u)) :
    truthy (dictGet row.fields cfg.lat_field) = true ∧
    truthy (dictGet row.fields cfg.lng_field) = true ∧
    ∃ lat lng t n,
      pyFloat (dictGet row.fields cfg.lat_field) = .ok lat ∧
      pyFloat (dictGet row.fields cfg.lng_field) = .ok lng ∧
      resolveTract cfg.engine g s lat lng = .ok (some t) ∧
      t ≠ "" ∧ pyInt t = .ok n ∧
      u = ⟨row.id, cfg.tract_field, toString n⟩ ∧
      pyEqStr (dictGet row.fields cfg.tract_field) (toString n) = false := by
  simp only [processRow] at h
  split at h
  · simp at h
  · rename_i hcond
    split at h
    · simp at h
    · rename_i lat hlat
      split at h
      · simp at h
      · rename_i lng hlng
        split at h
        · simp at h
        · rename_i tr htr
          match tr, htr with
          | none, htr => simp at h
          | some t, htr =>
            split at h
            · simp at h
            · rename_i m hm hne
              injection hne with hEq
              split at h
              · simp at h
              · rename_i hnil
                split at h
                · simp at h
                · rename_i n hn
                  simp at hcond
                  refine ⟨hcond.1, hcond.2, lat, lng, hm, n, hlat, hlng, ?_, hnil, hn, ?_, ?_⟩
                  · rw [htr, hEq]
                  · split at h
                    · simp at h
                    · split at h
                      · simp at h
                      · simp only [Except.ok.injEq, RowResult.upd.injEq] at h
                        exact h.symm
                  · split at h
                    · simp at h
                    · rename_i hEq2
                      simpa using hEq2

end AEnrich

namespace AEnrich

/-- Reading a field after writing one. -/
theorem dictGet_dictSet (fs : List (String × Value)) (k k' : String) (v : Value) :
    dictGet (dictSet fs k v) k' = if k = k' then v else dictGet fs k' := by
  by_cases h : k = k' <;> simp [dictGet, dictSet, h]

theorem processRow_after_self (cfg : Config) (g s : Resolver) (row : AirRecord) (u : Update)
    (hlatf : cfg.tract_field ≠ cfg.lat_field) (hlngf : cfg.tract_field ≠ cfg.lng_field)
    (h : processRow cfg g s row = .ok (.upd u)) :
    processRow cfg g s { row with fields := dictSet row.fields u.field (.str u.value) } = .ok .skipSame := by
  obtain ⟨h1, h2, lat, lng, t, n, hplat, hplng, hres, hne, hint, huid, hneq⟩ :=
    processRow_upd_inv cfg g s row u h
  subst huid
  have glat : dictGet (dictSet row.fields cfg.tract_field (.str (toString n))) cfg.lat_field
      = dictGet row.fields cfg.lat_field := by
    rw [dictGet_dictSet, if_neg hlatf]
  have glng : dictGet (dictSet row.fields cfg.tract_field (.str (toString n))) cfg.lng_field
      = dictGet row.fields cfg.lng_field := by
    rw [dictGet_dictSet, if_neg hlngf]
  have gtr : dictGet (dictSet row.fields cfg.tract_field (.str (toString n))) cfg.tract_field
      = .str (toString n) := by
    rw [dictGet_dictSet, if_pos rfl]
  rw [processRow_resolved cfg g s _ lat lng t n (by simpa [glat] using h1)
    (by simpa [glng] using h2) (by simpa [glat] using hplat)
    (by simpa [glng] using hplng) hres hne hint]
  simp [gtr, pyEqStr]

end AEnrich

namespace AEnrich

/-! ### The update list and re-running over updated records -/

theorem updatesOf_nil : updatesOf [] = [] := rfl

theorem updatesOf_cons (x : RowResult) (xs : List RowResult) :
    updatesOf (x :: xs) =
      (match x with | .upd u => u :: updatesOf xs | _ => updatesOf xs) := by
  cases x <;> rfl

def ownUpdate (cfg : Config) (g s : Resolver) (r : AirRecord) : Option Update :=
  match processRow cfg g s r with
  | .ok (.upd u) => some u
  | _ => none

theorem processRow_upd_id (cfg : Config) (g s : Resolver) (row : AirRecord) (u : Update)
    (h : processRow cfg g s row = .ok (.upd u)) : u.id = row.id ∧ u.field = cfg.tract_field := by
  obtain ⟨-, -, _, _, _, n, -, -, -, -, -, huid, -⟩ := processRow_upd_inv cfg g s row u h
  rw [huid]
  exact ⟨rfl, rfl⟩

theorem runRows_cons (cfg : Config) (g s : Resolver) (r : AirRecord) (rs : List AirRecord)
    (x : RowResult) (xs : List RowResult)
    (hx : processRow cfg g s r = .ok x) (hxs : runRows cfg g s rs = .ok xs) :
    runRows cfg g s (r :: rs) = .ok (x :: xs) := by
  simp [runRows, hx, hxs]

theorem runRows_cons_inv (cfg : Config) (g s : Resolver) (r : AirRecord) (rs : List AirRecord)
    (results : List RowResult) (h : runRows cfg g s (r :: rs) = .ok results) :
    ∃ x xs, processRow cfg g s r = .ok x ∧ runRows cfg g s rs = .ok xs ∧ results = x :: xs := by
  simp only [runRows] at h
  split at h
  · simp at h
  · rename_i x hx
    split at h
    · simp at h
    · rename_i xs hxs
      simp only [Except.ok.injEq] at h
      exact ⟨x, xs, hx, hxs, h.symm⟩

theorem runRows_updatesOf_id (cfg : Config) (g s : Resolver) :
    ∀ (rows : List AirRecord) (results : List RowResult),
      runRows cfg g s rows = .ok results →
      ∀ u ∈ updatesOf results, u.id ∈ rows.map AirRecord.id := by
  intro rows
  induction rows with
  | nil =>
    intro results h u hu
    simp only [runRows, Except.ok.injEq] at h
    subst h
    simp [updatesOf] at hu
  | cons r rs ih =>
    intro results h u hu
    obtain ⟨x, xs, hx, hxs, hres⟩ := runRows_cons_inv cfg g s r rs results h
    subst hres
    rw [updatesOf_cons] at hu
    cases x with
    | upd u0 =>
      rcases List.mem_cons.mp hu with h0 | h0
      · subst h0
        exact List.mem_cons.mpr (Or.inl (processRow_upd_id cfg g s r u hx).1)
      · exact List.mem_cons.mpr (Or.inr (ih xs hxs u h0))
    | skipMissing => exact List.mem_cons.mpr (Or.inr (ih xs hxs u hu))
    | skipNoTract => exact List.mem_cons.mpr (Or.inr (ih xs hxs u hu))
    | skipSame => exact List.mem_cons.mpr (Or.inr (ih xs hxs u hu))
    | skipConflict e nv => exact List.mem_cons.mpr (Or.inr (ih xs hxs u hu))


theorem find_own (cfg : Config) (g s : Resolver) :
    ∀ (rows : List AirRecord) (results : List RowResult),
      runRows cfg g s rows = .ok results →
      (rows.map AirRecord.id).Nodup →
      ∀ r ∈ rows, (updatesOf results).find? (fun u => u.id = r.id) = ownUpdate cfg g s r := by
  intro rows
  induction rows with
  | nil => intro results _ _ r hr; simp at hr
  | cons r0 rs ih =>
    intro results h hnd r hr
    obtain ⟨x, xs, hx, hxs, hres⟩ := runRows_cons_inv cfg g s r0 rs results h
    subst hres
    rw [List.map_cons, List.nodup_cons] at hnd
    obtain ⟨hnotin, hnd'⟩ := hnd
    rcases List.mem_cons.mp hr with hr0 | hrs
    · subst hr0
      rw [updatesOf_cons]
      cases x with
      | upd u0 =>
        have hid := (processRow_upd_id cfg g s r u0 hx).1
        simp only [List.find?_cons, hid]
        simp [ownUpdate, hx]
      | skipMissing =>
        simp only []
        rw [List.find?_eq_none.mpr, ownUpdate, hx]
        intro u hu
        simp only [decide_eq_true_eq]
        intro hEq
        exact hnotin (hEq ▸ runRows_updatesOf_id cfg g s rs xs hxs u hu)
      | skipNoTract =>
        simp only []
        rw [List.find?_eq_none.mpr, ownUpdate, hx]
        intro u hu
        simp only [decide_eq_true_eq]
        intro hEq
        exact hnotin (hEq ▸ runRows_updatesOf_id cfg g s rs xs hxs u hu)
      | skipSame =>
        simp only []
        rw [List.find?_eq_none.mpr, ownUpdate, hx]
        intro u hu
        simp only [decide_eq_true_eq]
        intro hEq
        exact hnotin (hEq ▸ runRows_updatesOf_id cfg g s rs xs hxs u hu)
      | skipConflict e nv =>
        simp only []
        rw [List.find?_eq_none.mpr, ownUpdate, hx]
        intro u hu
        simp only [decide_eq_true_eq]
        intro hEq
        exact hnotin (hEq ▸ runRows_updatesOf_id cfg g s rs xs hxs u hu)
    · rw [updatesOf_cons]
      have hrid : r.id ∈ rs.map AirRecord.id := List.mem_map.mpr ⟨r, hrs, rfl⟩
      cases x with
      | upd u0 =>
        have hid := (processRow_upd_id cfg g s r0 u0 hx).1
        have hne : (u0.id = r.id) = False := by
          simp only [eq_iff_iff, iff_false]
          intro hEq
          exact hnotin (hid ▸ hEq ▸ hrid)
        simp only [List.find?_cons, hne, decide_False]
        exact ih xs hxs hnd' r hrs
      | skipMissing => exact ih xs hxs hnd' r hrs
      | skipNoTract => exact ih xs hxs hnd' r hrs
      | skipSame => exact ih xs hxs hnd' r hrs
      | skipConflict e nv => exact ih xs hxs hnd' r hrs


theorem applyUpdates_cons (U : List Update) (r : AirRecord) (rs : List AirRecord) :
    applyUpdates U (r :: rs) =
      (match U.find? (fun u => u.id = r.id) with
        | some u => { r with fields := dictSet r.fields u.field (.str u.value) }
        | none => r) :: applyUpdates U rs := by
  simp [applyUpdates]

theorem runRows_after_apply (cfg : Config) (g s : Resolver)
    (hlatf : cfg.tract_field ≠ cfg.lat_field) (hlngf : cfg.tract_field ≠ cfg.lng_field) :
    ∀ (rows : List AirRecord) (results : List RowResult) (U : List Update),
      runRows cfg g s rows = .ok results →
      (∀ r ∈ rows, U.find? (fun u => u.id = r.id) = ownUpdate cfg g s r) →
      ∃ results2, runRows cfg g s (applyUpdates U rows) = .ok results2 ∧
        updatesOf results2 = [] := by
  intro rows
  induction rows with
  | nil =>
    intro results U _ _
    exact ⟨[], rfl, rfl⟩
  | cons r rs ih =>
    intro results U h hfind
    obtain ⟨x, xs, hx, hxs, hres⟩ := runRows_cons_inv cfg g s r rs results h
    obtain ⟨res2, hres2, hemp⟩ := ih xs U hxs (fun r' hr' => hfind r' (List.mem_cons_of_mem r hr'))
    have hfr := hfind r (List.mem_cons_self r rs)
    rw [applyUpdates_cons]
    cases x with
    | upd u0 =>
      rw [hfr, ownUpdate, hx]
      have hskip := processRow_after_self cfg g s r u0 hlatf hlngf hx
      exact ⟨.skipSame :: res2, runRows_cons cfg g s _ _ _ _ hskip hres2,
        by rw [updatesOf_cons]; exact hemp⟩
    | skipMissing =>
      rw [hfr, ownUpdate, hx]
      exact ⟨.skipMissing :: res2, runRows_cons cfg g s _ _ _ _ hx hres2,
        by rw [updatesOf_cons]; exact hemp⟩
    | skipNoTract =>
      rw [hfr, ownUpdate, hx]
      exact ⟨.skipNoTract :: res2, runRows_cons cfg g s _ _ _ _ hx hres2,
        by rw [updatesOf_cons]; exact hemp⟩
    | skipSame =>
      rw [hfr, ownUpdate, hx]
      exact ⟨.skipSame :: res2, runRows_cons cfg g s _ _ _ _ hx hres2,
        by rw [updatesOf_cons]; exact hemp⟩
    | skipConflict e nv =>
      rw [hfr, ownUpdate, hx]
      exact ⟨.skipConflict e nv :: res2, runRows_cons cfg g s _ _ _ _ hx hres2,
        by rw [updatesOf_cons]; exact hemp⟩

end AEnrich

namespace AEnrich

/-! ### Concrete fixtures used by witnesses and counterexamples -/

/-- A fill-census configuration: confirm on, override off, shapefile engine. -/
def exCfg : Config := ⟨"Latitude", "Longitude", "Tract", true, false, "shapefile"⟩

/-- Same configuration with the override flag enabled. -/
def exCfgOv : Config := ⟨"Latitude", "Longitude", "Tract", true, true, "shapefile"⟩

/-- A shapefile-strategy resolver that finds tract `06085504200` everywhere. -/
def exShp : Resolver := fun _ _ => .ok (some "06085504200")

/-- A resolver that never finds a tract. -/
def exGeoNone : Resolver := fun _ _ => .ok none

/-- A record with parseable coordinates and no existing tract value. -/
def exRowNew : AirRecord := ⟨"recA", [("Latitude", .str "37"), ("Longitude", .str "-122")]⟩

/-- A record whose tract field already holds the normalized resolved value. -/
def exRowSame : AirRecord :=
  ⟨"recC", [("Latitude", .str "37"), ("Longitude", .str "-122"), ("Tract", .str "6085504200")]⟩

/-- A record whose tract field holds a different non-empty value. -/
def exRowConflict : AirRecord :=
  ⟨"recD", [("Latitude", .str "37"), ("Longitude", .str "-122"), ("Tract", .str "1234")]⟩

/-- A record with no longitude field at all. -/
def exRowMissing : AirRecord := ⟨"recB", [("Latitude", .str "37")]⟩

/-- A record whose latitude is the number `0` (falsy in Python). -/
def exRowZero : AirRecord := ⟨"recE", [("Latitude", .num 0), ("Longitude", .str "-122")]⟩

end AEnrich

namespace AEnrich

/-- **C4.** A record whose existing tract-field value already equals the
resolved normalized TractID yields the silent `skipSame` (no Update),
whatever the override flag; and a second fill-census run over the table
updated by `batch_update` (same resolvers, distinct record ids, coordinate
fields distinct from the tract field) produces zero Updates and terminates
as "no updates needed". -/
theorem tract_equal_skip_and_second_run_empty :
    (∀ (cfg : Config) (g s : Resolver) (row : AirRecord) (lat lng : Rat)
        (t : String) (n : Int),
      truthy (dictGet row.fields cfg.lat_field) = true →
      truthy (dictGet row.fields cfg.lng_field) = true →
      pyFloat (dictGet row.fields cfg.lat_field) = .ok lat →
      pyFloat (dictGet row.fields cfg.lng_field) = .ok lng →
      resolveTract cfg.engine g s lat lng = .ok (some t) →
      t ≠ "" → pyInt t = .ok n →
      dictGet row.fields cfg.tract_field = .str (toString n) →
      processRow cfg g s row = .ok .skipSame) ∧
    (∀ (cfg : Config) (g s : Resolver) (ans : Bool) (rows : List AirRecord)
        (results : List RowResult),
      runRows cfg g s rows = .ok results →
      (rows.map AirRecord.id).Nodup →
      cfg.tract_field ≠ cfg.lat_field →
      cfg.tract_field ≠ cfg.lng_field →
      fill_census cfg g s ans (applyUpdates (updatesOf results) rows) = .noUpdates) := by
  constructor
  · intro cfg g s row lat lng t n h1 h2 h3 h4 h5 h6 h7 hEq
    rw [processRow_resolved cfg g s row lat lng t n h1 h2 h3 h4 h5 h6 h7]
    simp [hEq, pyEqStr]
  · intro cfg g s ans rows results h hnd hlf hgf
    obtain ⟨res2, hres2, hemp⟩ := runRows_after_apply cfg g s hlf hgf rows results
      (updatesOf results) h (find_own cfg g s rows results h hnd)
    simp [fill_census, hres2, hemp]

theorem tract_equal_skip_and_second_run_empty_witness :
    processRow exCfg exGeoNone exShp exRowSame = .ok .skipSame ∧
    fill_census exCfg exGeoNone exShp true
      (applyUpdates (updatesOf [.upd ⟨"recA", "Tract", "6085504200"⟩, .skipSame])
        [exRowNew, exRowSame]) = .noUpdates := by
  constructor
  · exact tract_equal_skip_and_second_run_empty.1 exCfg exGeoNone exShp exRowSame
      37 (-122) "06085504200" 6085504200 (by rfl) (by rfl) (by rfl) (by rfl) (by rfl)
      (by decide) (by rfl) (by rfl)
  · exact tract_equal_skip_and_second_run_empty.2 exCfg exGeoNone exShp true
      [exRowNew, exRowSame] [.upd ⟨"recA", "Tract", "6085504200"⟩, .skipSame]
      (by rfl) (by decide) (by decide) (by decide)

end AEnrich

namespace AEnrich

/-- **C3.** For a record whose resolved tract is found (normalized to
`toString n`): with override disabled, an existing non-empty tract value
different from the resolved value yields a logged conflict skip and no
Update; with override enabled, it yields an Update overwriting the existing
value. -/
theorem override_semantics :
    ∀ (cfg : Config) (g s : Resolver) (row : AirRecord) (lat lng : Rat)
      (t existing : String) (n : Int),
      truthy (dictGet row.fields cfg.lat_field) = true →
      truthy (dictGet row.fields cfg.lng_field) = true →
      pyFloat (dictGet row.fields cfg.lat_field) = .ok lat →
      pyFloat (dictGet row.fields cfg.lng_field) = .ok lng →
      resolveTract cfg.engine g s lat lng = .ok (some t) →
      t ≠ "" → pyInt t = .ok n →
      dictGet row.fields cfg.tract_field = .str existing →
      existing ≠ "" → existing ≠ toString n →
      (cfg.override = false →
        processRow cfg g s row = .ok (.skipConflict (.str existing) (toString n)) ∧
        ∀ u, processRow cfg g s row ≠ .ok (.upd u)) ∧
      (cfg.override = true →
        processRow cfg g s row = .ok (.upd ⟨row.id, cfg.tract_field, toString n⟩)) := by
  intro cfg g s row lat lng t existing n h1 h2 h3 h4 h5 h6 h7 hEx hNe hDiff
  have hpr := processRow_resolved cfg g s row lat lng t n h1 h2 h3 h4 h5 h6 h7
  constructor
  · intro hov
    have hcf : processRow cfg g s row = .ok (.skipConflict (.str existing) (toString n)) := by
      rw [hpr]
      simp [hEx, pyEqStr, truthy, hDiff, hNe, hov]
    exact ⟨hcf, by simp [hcf]⟩
  · intro hov
    rw [hpr]
    simp [hEx, pyEqStr, truthy, hDiff, hNe, hov]

theorem override_semantics_witness :
    processRow exCfg exGeoNone exShp exRowConflict =
      .ok (.skipConflict (.str "1234") "6085504200") ∧
    processRow exCfgOv exGeoNone exShp exRowConflict =
      .ok (.upd ⟨"recD", "Tract", "6085504200"⟩) := by
  constructor
  · exact ((override_semantics exCfg exGeoNone exShp exRowConflict 37 (-122)
      "06085504200" "1234" 6085504200 (by rfl) (by rfl) (by rfl) (by rfl) (by rfl)
      (by decide) (by rfl) (by rfl) (by decide) (by decide)).1 rfl).1
  · exact (override_semantics exCfgOv exGeoNone exShp exRowConflict 37 (-122)
      "06085504200" "1234" 6085504200 (by rfl) (by rfl) (by rfl) (by rfl) (by rfl)
      (by decide) (by rfl) (by rfl) (by decide) (by decide)).2 rfl

/-- **C8.** When the computed Update list is empty, the run reports
no-updates-needed (`noUpdates`), never calls `batch_update`, and exits 0. -/
theorem empty_updates_no_write :
    ∀ (cfg : Config) (g s : Resolver) (ans : Bool) (rows : List AirRecord)
      (results : List RowResult),
      runRows cfg g s rows = .ok results →
      updatesOf results = [] →
      fill_census cfg g s ans rows = .noUpdates ∧
      (∀ us, fill_census cfg g s ans rows ≠ .applied us) ∧
      exitCode (fill_census cfg g s ans rows) = 0 := by
  intro cfg g s ans rows results h hemp
  have hfc : fill_census cfg g s ans rows = .noUpdates := by
    simp [fill_census, h, hemp]
  exact ⟨hfc, by simp [hfc], by simp [hfc, exitCode]⟩

theorem empty_updates_no_write_witness :
    fill_census exCfg exGeoNone exShp true [exRowMissing] = .noUpdates ∧
    (∀ us, fill_census exCfg exGeoNone exShp true [exRowMissing] ≠ .applied us) ∧
    exitCode (fill_census exCfg exGeoNone exShp true [exRowMissing]) = 0 :=
  empty_updates_no_write exCfg exGeoNone exShp true [exRowMissing] [.skipMissing]
    (by rfl) rfl

/-- **C10.** A latitude or longitude field holding the number 0, the empty
string, or null is treated as a missing coordinate: the row is skipped
before resolution (the result does not depend on the resolvers) and never
yields an Update. -/
theorem falsy_coordinate_skip :
    ∀ (cfg : Config) (g s g2 s2 : Resolver) (row : AirRecord),
      (dictGet row.fields cfg.lat_field = .num 0 ∨
       dictGet row.fields cfg.lat_field = .str "" ∨
       dictGet row.fields cfg.lat_field = .null ∨
       dictGet row.fields cfg.lng_field = .num 0 ∨
       dictGet row.fields cfg.lng_field = .str "" ∨
       dictGet row.fields cfg.lng_field = .null) →
      processRow cfg g s row = .ok .skipMissing ∧
      processRow cfg g s row = processRow cfg g2 s2 row ∧
      (∀ u, processRow cfg g s row ≠ .ok (.upd u)) := by
  intro cfg g s g2 s2 row h
  have hf : truthy (dictGet row.fields cfg.lat_field) = false ∨
      truthy (dictGet row.fields cfg.lng_field) = false := by
    rcases h with h | h | h | h | h | h
    · left; rw [h]; decide
    · left; rw [h]; decide
    · left; rw [h]; decide
    · right; rw [h]; decide
    · right; rw [h]; decide
    · right; rw [h]; decide
  have h1 := processRow_skipMissing cfg g s row hf
  have h2 := processRow_skipMissing cfg g2 s2 row hf
  exact ⟨h1, by rw [h1, h2], by simp [h1]⟩

theorem falsy_coordinate_skip_witness :
    processRow exCfg exGeoNone exShp exRowZero = .ok .skipMissing ∧
    processRow exCfg exGeoNone exShp exRowZero = processRow exCfg exShp exGeoNone exRowZero ∧
    (∀ u, processRow exCfg exGeoNone exShp exRowZero ≠ .ok (.upd u)) :=
  falsy_coordinate_skip exCfg exGeoNone exShp exShp exGeoNone exRowZero (Or.inl (by rfl))

end AEnrich

namespace AEnrich

/-- A record whose latitude is a non-empty string that `float()` rejects. -/
def exRowBadLat : AirRecord := ⟨"recX", [("Latitude", .str "abc"), ("Longitude", .str "-122")]⟩

/-- **C1, counterexample.** A record whose latitude field holds the
non-empty, non-numeric string `"abc"` does not make fill-census "skip the
record without crashing": the uncaught `ValueError` from `float("abc")`
(cli.py line 159) aborts the whole run. -/
theorem unparseable_coordinate_skip_cex :
    fill_census exCfg exGeoNone exShp true [exRowBadLat] =
      .failed (.valueError "could not convert string to float: abc") := by rfl

/-- **C1, amended.** When both coordinate fields are present and truthy but
one of them is not parseable as a number, resolution is indeed never
attempted (the outcome does not depend on the resolvers) and no Update is
produced for the record — but the record is not skipped: the `ValueError`
raised by `float()` propagates and the run fails. -/
theorem unparseable_coordinate_raises :
    ∀ (cfg : Config) (g s g2 s2 : Resolver) (row : AirRecord) (e : PyErr),
      truthy (dictGet row.fields cfg.lat_field) = true →
      truthy (dictGet row.fields cfg.lng_field) = true →
      (pyFloat (dictGet row.fields cfg.lat_field) = .error e ∨
        ((∃ q, pyFloat (dictGet row.fields cfg.lat_field) = .ok q) ∧
          pyFloat (dictGet row.fields cfg.lng_field) = .error e)) →
      processRow cfg g s row = .error e ∧
      processRow cfg g2 s2 row = .error e ∧
      (∀ u, processRow cfg g s row ≠ .ok (.upd u)) ∧
      (∀ rest ans, fill_census cfg g s ans (row :: rest) = .failed e) := by
  intro cfg g s g2 s2 row e h1 h2 h3
  have key : ∀ (g' s' : Resolver), processRow cfg g' s' row = .error e := by
    intro g' s'
    rcases h3 with hlat | ⟨⟨q, hq⟩, hlng⟩
    · simp [processRow, h1, h2, hlat]
    · simp [processRow, h1, h2, hq, hlng]
  refine ⟨key g s, key g2 s2, by simp [key g s], ?_⟩
  intro rest ans
  have hrr : runRows cfg g s (row :: rest) = .error e := by
    simp [runRows, key g s]
  simp [fill_census, hrr]

theorem unparseable_coordinate_raises_witness :
    processRow exCfg exGeoNone exShp exRowBadLat =
      .error (.valueError "could not convert string to float: abc") ∧
    processRow exCfg exShp exGeoNone exRowBadLat =
      .error (.valueError "could not convert string to float: abc") ∧
    (∀ u, processRow exCfg exGeoNone exShp exRowBadLat ≠ .ok (.upd u)) ∧
    (∀ rest ans, fill_census exCfg exGeoNone exShp ans (exRowBadLat :: rest) =
      .failed (.valueError "could not convert string to float: abc")) :=
  unparseable_coordinate_raises exCfg exGeoNone exShp exShp exGeoNone exRowBadLat
    (.valueError "could not convert string to float: abc")
    (by rfl) (by rfl) (Or.inl (by rfl))

end AEnrich

namespace AEnrich

/-- The fill-census configuration with the remote geocoder engine. -/
def exCfgGeo : Config := ⟨"Latitude", "Longitude", "Tract", true, false, "geocoder"⟩

/-- A network that always times out (what `requests.get` raises). -/
def exNetTimeout : Rat → Rat → Except PyErr Json :=
  fun _ _ => .error (.requestError "connect timeout")

/-- **C2, counterexample.** With the remote-geocoder strategy, a request
timeout while resolving the first row is not caught anywhere in
`fill_census`: the whole two-row run fails instead of skipping that row. -/
theorem geocoder_timeout_single_row_skip_cex :
    fill_census exCfgGeo (geocoderResolver exNetTimeout) exShp true [exRowNew, exRowSame] =
      .failed (.requestError "connect timeout") := by rfl

/-- **C2, amended.** In the remote-geocoder strategy a request
timeout/transport error during one row's resolution is NOT caught: it
propagates out of the row loop, aborts the entire fill-census run
(`failed`, so `batch_update` is never called), rather than skipping just
that row. -/
theorem geocoder_timeout_aborts_run :
    ∀ (cfg : Config) (net : Rat → Rat → Except PyErr Json) (s : Resolver)
      (row : AirRecord) (lat lng : Rat) (e : PyErr) (ans : Bool)
      (rest : List AirRecord),
      cfg.engine = "geocoder" →
      truthy (dictGet row.fields cfg.lat_field) = true →
      truthy (dictGet row.fields cfg.lng_field) = true →
      pyFloat (dictGet row.fields cfg.lat_field) = .ok lat →
      pyFloat (dictGet row.fields cfg.lng_field) = .ok lng →
      net lat lng = .error e →
      processRow cfg (geocoderResolver net) s row = .error e ∧
      fill_census cfg (geocoderResolver net) s ans (row :: rest) = .failed e ∧
      (∀ us, fill_census cfg (geocoderResolver net) s ans (row :: rest) ≠ .applied us) := by
  intro cfg net s row lat lng e ans rest heng h1 h2 h3 h4 hnet
  have hres : resolveTract cfg.engine (geocoderResolver net) s lat lng = .error e := by
    rw [heng]
    simp [resolveTract, geocoderResolver, tract_from_census_geocoder, hnet]
  have hrow : processRow cfg (geocoderResolver net) s row = .error e := by
    simp [processRow, h1, h2, h3, h4, hres]
  have hrr : runRows cfg (geocoderResolver net) s (row :: rest) = .error e := by
    simp [runRows, hrow]
  have hfc : fill_census cfg (geocoderResolver net) s ans (row :: rest) = .failed e := by
    simp [fill_census, hrr]
  exact ⟨hrow, hfc, by simp [hfc]⟩

theorem geocoder_timeout_aborts_run_witness :
    processRow exCfgGeo (geocoderResolver exNetTimeout) exShp exRowNew =
      .error (.requestError "connect timeout") ∧
    fill_census exCfgGeo (geocoderResolver exNetTimeout) exShp true (exRowNew :: [exRowSame]) =
      .failed (.requestError "connect timeout") ∧
    (∀ us, fill_census exCfgGeo (geocoderResolver exNetTimeout) exShp true
      (exRowNew :: [exRowSame]) ≠ .applied us) :=
  geocoder_timeout_aborts_run exCfgGeo exNetTimeout exShp exRowNew 37 (-122)
    (.requestError "connect timeout") true [exRowSame]
    (by rfl) (by rfl) (by rfl) (by rfl) (by rfl) (by rfl)

end AEnrich

namespace AEnrich

/-- A second distinct record with parseable coordinates and no tract. -/
def exRowNew2 : AirRecord := ⟨"recF", [("Latitude", .str "38"), ("Longitude", .str "-121")]⟩

/-- **C6, counterexample.** Declining the prompt with 2 pending Updates
never calls `batch_update`, but the run does not exit 0: `click.confirm`
with `abort=True` raises `click.Abort`, which click's driver reports as
exit code 1. -/
theorem decline_confirmation_exit_zero_cex :
    fill_census exCfg exGeoNone exShp false [exRowNew, exRowNew2] =
      .abortedByUser [⟨"recA", "Tract", "6085504200"⟩, ⟨"recF", "Tract", "6085504200"⟩] ∧
    exitCode (fill_census exCfg exGeoNone exShp false [exRowNew, exRowNew2]) = 1 := by
  constructor <;> rfl

/-- **C6, amended.** Declining the confirmation while Updates are pending
aborts the run before `batch_update` (no write is ever issued), and the
process terminates through `click.Abort` with exit code 1, not 0. -/
theorem decline_confirmation_no_write :
    ∀ (cfg : Config) (g s : Resolver) (rows : List AirRecord)
      (results : List RowResult),
      cfg.confirm = true →
      runRows cfg g s rows = .ok results →
      updatesOf results ≠ [] →
      fill_census cfg g s false rows = .abortedByUser (updatesOf results) ∧
      (∀ us, fill_census cfg g s false rows ≠ .applied us) ∧
      exitCode (fill_census cfg g s false rows) = 1 := by
  intro cfg g s rows results hconf h hne
  have hie : (updatesOf results).isEmpty = false := by
    cases hu : updatesOf results with
    | nil => exact absurd hu hne
    | cons a l => rfl
  have hfc : fill_census cfg g s false rows = .abortedByUser (updatesOf results) := by
    simp [fill_census, h, hie, hconf]
  exact ⟨hfc, by simp [hfc], by simp [hfc, exitCode]⟩

theorem decline_confirmation_no_write_witness :
    fill_census exCfg exGeoNone exShp false [exRowNew] =
      .abortedByUser (updatesOf [.upd ⟨"recA", "Tract", "6085504200"⟩]) ∧
    (∀ us, fill_census exCfg exGeoNone exShp false [exRowNew] ≠ .applied us) ∧
    exitCode (fill_census exCfg exGeoNone exShp false [exRowNew]) = 1 :=
  decline_confirmation_no_write exCfg exGeoNone exShp [exRowNew]
    [.upd ⟨"recA", "Tract", "6085504200"⟩] rfl (by rfl) (by decide)

/-- A configuration naming an engine that is neither strategy. -/
def exCfgBogus : Config := ⟨"Latitude", "Longitude", "Tract", true, false, "csv"⟩

/-- **C7, counterexample.** The invalid-engine check lives inside the
per-row loop, so it is NOT independent of the table contents: with an
unknown engine and an empty table the run completes successfully (exit 0)
instead of failing. -/
theorem invalid_engine_always_fatal_cex :
    fill_census exCfgBogus exGeoNone exShp true [] = .noUpdates ∧
    exitCode (fill_census exCfgBogus exGeoNone exShp true []) = 0 := by
  constructor <;> rfl

/-- With an unknown engine, a row either short-circuits at the
missing-coordinate check or raises; it can never produce any other result. -/
theorem processRow_invalid_engine (cfg : Config) (g s : Resolver) (row : AirRecord)
    (h1 : cfg.engine ≠ "geocoder") (h2 : cfg.engine ≠ "shapefile") :
    ∀ x, processRow cfg g s row = .ok x → x = .skipMissing := by
  intro x h
  have hres : ∀ la ln, resolveTract cfg.engine g s la ln =
      .error (.exception ("Invalid engine specified " ++ cfg.engine)) := by
    intro la ln
    simp [resolveTract, h1, h2]
  simp only [processRow, hres] at h
  split at h
  · exact (by simpa using h.symm)
  · split at h
    · simp at h
    · split at h
      · simp at h
      · simp at h

theorem runRows_invalid_engine (cfg : Config) (g s : Resolver)
    (h1 : cfg.engine ≠ "geocoder") (h2 : cfg.engine ≠ "shapefile") :
    ∀ (rows : List AirRecord) (results : List RowResult),
      runRows cfg g s rows = .ok results → updatesOf results = [] := by
  intro rows
  induction rows with
  | nil =>
    intro results h
    simp only [runRows, Except.ok.injEq] at h
    subst h
    rfl
  | cons r rs ih =>
    intro results h
    obtain ⟨x, xs, hx, hxs, hres⟩ := runRows_cons_inv cfg g s r rs results h
    subst hres
    have hxm := processRow_invalid_engine cfg g s r h1 h2 x hx
    subst hxm
    simpa [updatesOf_cons] using ih xs hxs

/-- **C7, amended.** With an engine that is neither known strategy, no
write is ever issued (for any table), and the first record that reaches
resolution raises the fatal invalid-engine error, failing the run; but a
run in which no record reaches resolution terminates without the error. -/
theorem invalid_engine_config_error :
    (∀ (cfg : Config) (g s : Resolver) (ans : Bool) (rows : List AirRecord)
        (us : List Update),
      cfg.engine ≠ "geocoder" → cfg.engine ≠ "shapefile" →
      fill_census cfg g s ans rows ≠ .applied us) ∧
    (∀ (cfg : Config) (g s : Resolver) (ans : Bool) (row : AirRecord)
        (rest : List AirRecord) (lat lng : Rat),
      cfg.engine ≠ "geocoder" → cfg.engine ≠ "shapefile" →
      truthy (dictGet row.fields cfg.lat_field) = true →
      truthy (dictGet row.fields cfg.lng_field) = true →
      pyFloat (dictGet row.fields cfg.lat_field) = .ok lat →
      pyFloat (dictGet row.fields cfg.lng_field) = .ok lng →
      fill_census cfg g s ans (row :: rest) =
        .failed (.exception ("Invalid engine specified " ++ cfg.engine))) := by
  constructor
  · intro cfg g s ans rows us h1 h2
    cases hrun : runRows cfg g s rows with
    | error e => simp [fill_census, hrun]
    | ok results =>
      have hemp := runRows_invalid_engine cfg g s h1 h2 rows results hrun
      simp [fill_census, hrun, hemp]
  · intro cfg g s ans row rest lat lng h1 h2 ht1 ht2 hp1 hp2
    have hres : resolveTract cfg.engine g s lat lng =
        .error (.exception ("Invalid engine specified " ++ cfg.engine)) := by
      simp [resolveTract, h1, h2]
    have hrow : processRow cfg g s row =
        .error (.exception ("Invalid engine specified " ++ cfg.engine)) := by
      simp [processRow, ht1, ht2, hp1, hp2, hres]
    have hrr : runRows cfg g s (row :: rest) =
        .error (.exception ("Invalid engine specified " ++ cfg.engine)) := by
      simp [runRows, hrow]
    simp [fill_census, hrr]

theorem invalid_engine_config_error_witness :
    (fill_census exCfgBogus exGeoNone exShp true [exRowNew] ≠ .applied []) ∧
    fill_census exCfgBogus exGeoNone exShp true (exRowNew :: []) =
      .failed (.exception ("Invalid engine specified " ++ exCfgBogus.engine)) :=
  ⟨invalid_engine_config_error.1 exCfgBogus exGeoNone exShp true [exRowNew] []
      (by decide) (by decide),
    invalid_engine_config_error.2 exCfgBogus exGeoNone exShp true exRowNew [] 37 (-122)
      (by decide) (by decide) (by rfl) (by rfl) (by rfl) (by rfl)⟩

end AEnrich

namespace AEnrich

/-- **C9, counterexample.** The geocoder JSON decoding CAN raise on a
parsed response: when the truthy `result` object has no `geographies`
entry, `result.get("geographies")` yields `None` and the subsequent
`geographies.get("Census Tracts")` raises `AttributeError` instead of
returning null. -/
theorem geocoder_body_never_raises_cex :
    tract_from_census_geocoder_body (.obj [("result", .obj [("match", .bool true)])]) =
      .error (.attributeError "object has no attribute get: Census Tracts") := by rfl

/-- **C9, amended.** The geocoder response decoding returns null when the
top-level `result` is absent or falsy, when the Census-Tract list is
absent-with-a-geographies-dict or empty, or when the first tract's `status`
is truthy; when the first tract's `status` is falsy and it has a `GEOID`,
that GEOID is returned.  (It is NOT raise-free: a truthy `result` without a
`geographies` dict raises, see the counterexample.) -/
theorem geocoder_body_cases :
    (∀ (kvs : List (String × Json)) (r : Json),
      jsonGet (.obj kvs) "result" = .ok r → jtruthy r = false →
      tract_from_census_geocoder_body (.obj kvs) = .ok none) ∧
    (∀ (resp result geos ts : Json),
      jsonGet resp "result" = .ok result → jtruthy result = true →
      jsonGet result "geographies" = .ok geos →
      jsonGet geos "Census Tracts" = .ok ts → jtruthy ts = false →
      tract_from_census_geocoder_body resp = .ok none) ∧
    (∀ (resp result geos tract st : Json) (rest : List Json),
      jsonGet resp "result" = .ok result → jtruthy result = true →
      jsonGet result "geographies" = .ok geos →
      jsonGet geos "Census Tracts" = .ok (.arr (tract :: rest)) →
      jsonGet tract "status" = .ok st →
      (jtruthy st = true → tract_from_census_geocoder_body resp = .ok none) ∧
      (jtruthy st = false → ∀ gv, jsonItem tract "GEOID" = .ok gv →
        tract_from_census_geocoder_body resp = .ok (some gv))) := by
  refine ⟨?_, ?_, ?_⟩
  · intro kvs r hget htr
    simp [tract_from_census_geocoder_body, hget, htr]
  · intro resp result geos ts hget1 htr1 hget2 hget3 htr3
    simp [tract_from_census_geocoder_body, hget1, htr1, hget2, hget3, htr3]
  · intro resp result geos tract st rest hget1 htr1 hget2 hget3 hst
    have harr : jtruthy (Json.arr (tract :: rest)) = true := by simp [jtruthy]
    have hfirst : jsonFirst (Json.arr (tract :: rest)) = .ok tract := rfl
    constructor
    · intro htst
      simp [tract_from_census_geocoder_body, hget1, htr1, hget2, hget3,
        harr, hfirst, hst, htst]
    · intro hfst gv hgv
      simp [tract_from_census_geocoder_body, hget1, htr1, hget2, hget3,
        harr, hfirst, hst, hfst, hgv]

theorem geocoder_body_cases_witness :
    tract_from_census_geocoder_body (.obj []) = .ok none ∧
    tract_from_census_geocoder_body
      (.obj [("result", .obj [("geographies", .obj [("Census Tracts",
        .arr [.obj [("GEOID", .str "06037123456")]])])])]) =
      .ok (some (.str "06037123456")) := by
  constructor
  · exact geocoder_body_cases.1 [] .null (by rfl) (by rfl)
  · exact ((geocoder_body_cases.2.2
      (.obj [("result", .obj [("geographies", .obj [("Census Tracts",
        .arr [.obj [("GEOID", .str "06037123456")]])])])])
      (.obj [("geographies", .obj [("Census Tracts",
        .arr [.obj [("GEOID", .str "06037123456")]])])])
      (.obj [("Census Tracts", .arr [.obj [("GEOID", .str "06037123456")]])])
      (.obj [("GEOID", .str "06037123456")]) .null []
      (by rfl) (by rfl) (by rfl) (by rfl) (by rfl)).2 (by rfl)
      (.str "06037123456") (by rfl))

end AEnrich

namespace AEnrich

/-! ### Digit strings through the int() round-trip -/

theorem digit_not_ws (c : Char) (h : c.isDigit = true) : isWS c = false := by
  unfold isWS
  simp only [decide_eq_false_iff_not]
  intro hc
  rcases hc with rfl | rfl | rfl | rfl <;> exact absurd h (by decide)

theorem digit_ne_dash (c : Char) (h : c.isDigit = true) : c ≠ '-' := by
  intro hc
  subst hc
  exact absurd h (by decide)

theorem digit_ne_plus (c : Char) (h : c.isDigit = true) : c ≠ '+' := by
  intro hc
  subst hc
  exact absurd h (by decide)

theorem splitSign_digit (c : Char) (cs : List Char) (h : c.isDigit = true) :
    splitSign (c :: cs) = (false, c :: cs) := by
  rw [show splitSign (c :: cs) =
      (if c = '-' then (true, cs) else if c = '+' then (false, cs) else (false, c :: cs))
    from rfl]
  rw [if_neg (digit_ne_dash c h), if_neg (digit_ne_plus c h)]

theorem trimWS_digits (cs : List Char) (h : cs.all Char.isDigit = true) :
    trimWS cs = cs := by
  have hall := List.all_eq_true.mp h
  unfold trimWS
  have h1 : cs.dropWhile isWS = cs := by
    cases cs with
    | nil => rfl
    | cons a l =>
      have ha : isWS a = false :=
        digit_not_ws a (by simpa using hall a (List.mem_cons_self a l))
      simp [List.dropWhile_cons, ha]
  rw [h1]
  have h2 : cs.reverse.dropWhile isWS = cs.reverse := by
    cases hr : cs.reverse with
    | nil => rfl
    | cons a l =>
      have ha : a ∈ cs := by
        rw [← List.mem_reverse, hr]
        exact List.mem_cons_self a l
      have hd : isWS a = false := digit_not_ws a (by simpa using hall a ha)
      simp [List.dropWhile_cons, hd]
  rw [h2, List.reverse_reverse]

theorem pyInt_digits (s : String) (hne : s.data ≠ []) (hd : s.data.all Char.isDigit = true) :
    pyInt s = .ok (digitsVal s.data : Int) := by
  obtain ⟨c, cs, hs⟩ : ∃ c cs, s.data = c :: cs := by
    cases hcs : s.data with
    | nil => exact absurd hcs hne
    | cons c cs => exact ⟨c, cs, rfl⟩
  have hc : c.isDigit = true := by
    have := List.all_eq_true.mp hd c (by rw [hs]; exact List.mem_cons_self c cs)
    simpa using this
  simp only [pyInt]
  rw [trimWS_digits s.data hd, hs, splitSign_digit c cs hc]
  have hcond : (c :: cs ≠ [] ∧ (c :: cs).all Char.isDigit = true) := by
    constructor
    · simp
    · rw [← hs]; exact hd
  simp [hcond]

end AEnrich

namespace AEnrich

/-- **C5.** GEOID normalization is the `str(int(tract))` round-trip: a
digit-string tract parses to its integer value (so `toString` of it is the
decimal rendering with leading zeros stripped), `"06037123456"` is stored
as `"6037123456"` while `"48453001100"` is unchanged; and the row step is
strategy-agnostic — with extensionally equal resolvers, the geocoder and
shapefile engines produce identical row results, so both feed the same
normalization. -/
theorem geoid_normalization :
    (∀ (t : String), t.data ≠ [] → t.data.all Char.isDigit = true →
      pyInt t = .ok (digitsVal t.data : Int)) ∧
    ((pyInt "06037123456").map toString = .ok "6037123456" ∧
     (pyInt "48453001100").map toString = .ok "48453001100") ∧
    (∀ (cfg : Config) (g s : Resolver) (row : AirRecord),
      (∀ la ln, g la ln = s la ln) →
      processRow { cfg with engine := "geocoder" } g s row =
        processRow { cfg with engine := "shapefile" } g s row) := by
  refine ⟨pyInt_digits, ⟨by rfl, by rfl⟩, ?_⟩
  intro cfg g s row hag
  simp [processRow, resolveTract, hag]

theorem geoid_normalization_witness :
    pyInt "06037123456" = .ok (digitsVal "06037123456".data : Int) ∧
    processRow { exCfg with engine := "geocoder" } exShp exShp exRowNew =
      processRow { exCfg with engine := "shapefile" } exShp exShp exRowNew :=
  ⟨geoid_normalization.1 "06037123456" (by decide) (by decide),
   geoid_normalization.2.2 exCfg exShp exShp exRowNew (fun _ _ => rfl)⟩

end AEnrich
